import Mathlib

/-!
Verification of the Sungan River water-quality analyzer
(`src/sungan/analyzer.py` and the aggregation loop of `src/app.py`).

Numeric values that Python holds in floats are embedded as exact
rationals (`ℚ`) for the scorer, aggregator, rating and standards
tables, and as real numbers (`ℝ`) for the distance→value regression
predictors, whose formulas use the natural logarithm and a real power.
Python's `raise ValueError(msg)` is embedded as `Except.error msg`.
-/

namespace Sungan

/-- Python `int(x)`: truncation toward zero of a rational. -/
def pytrunc (q : ℚ) : ℤ :=
  if 0 ≤ q then ⌊q⌋ else ⌈q⌉

/-- The `weights` table of `SunganRiverWaterQualityAnalyzer.__init__`,
in Python dict insertion order. -/
def weights : List (String × ℚ) :=
  [("DO", 0.27),
   ("pH", 0.175),
   ("nitrate", 0.159),
   ("phosphate", 0.159),
   ("turbidity", 0.127),
   ("TDS", 0.111)]

/-- The sum of the six aggregation weights. -/
def weightsSum : ℚ := (weights.map Prod.snd).sum

/-- The `standards` table: per-parameter (min, max) bounds, with
`float('inf')` for DO's max embedded as `⊤ : WithTop ℚ`. -/
def standards : List (String × ℚ × WithTop ℚ) :=
  [("pH", (6.5, ((8.5 : ℚ) : WithTop ℚ))),
   ("DO", (5.0, (⊤ : WithTop ℚ))),
   ("turbidity", (0, ((5 : ℚ) : WithTop ℚ))),
   ("TDS", (0, ((100 : ℚ) : WithTop ℚ))),
   ("iron", (0, ((0.3 : ℚ) : WithTop ℚ))),
   ("phosphate", (0, ((0.4 : ℚ) : WithTop ℚ))),
   ("nitrate", (0, ((10 : ℚ) : WithTop ℚ)))]

/-- The `wqi_rating` table: (min, max) score interval → rating label,
in Python dict insertion order. -/
def wqi_rating : List ((ℚ × ℚ) × String) :=
  [((91, 100), "Excellent Quality"),
   ((71, 90), "Good Quality"),
   ((51, 70), "Moderate Quality"),
   ((26, 50), "Poor Quality"),
   ((0, 25), "Very Poor Quality")]

/-- `get_q_value(parameter, value)`: the per-parameter piecewise
Q-value mapping of `analyzer.py`. -/
def get_q_value (parameter : String) (value : ℚ) : ℚ :=
  if parameter = "DO" then
    if value ≥ 7.5 then 90
    else if value ≥ 7.0 then 85
    else if value ≥ 6.5 then 80
    else if value ≥ 6.0 then 75
    else if value ≥ 5.5 then 70
    else if value ≥ 5.0 then 65
    else max 0 ((pytrunc (value * 10) : ℤ) : ℚ)
  else if parameter = "pH" then
    if 7.0 ≤ value ∧ value ≤ 8.0 then 90
    else if (6.5 ≤ value ∧ value < 7.0) ∨ (8.0 < value ∧ value ≤ 8.5) then 80
    else if (6.0 ≤ value ∧ value < 6.5) ∨ (8.5 < value ∧ value ≤ 9.0) then 60
    else if (5.5 ≤ value ∧ value < 6.0) ∨ (9.0 < value ∧ value ≤ 9.5) then 40
    else 20
  else if parameter = "nitrate" then
    if value ≤ 1.0 then 95
    else if value ≤ 2.0 then 90
    else if value ≤ 5.0 then 80
    else if value ≤ 7.5 then 70
    else if value ≤ 10.0 then 60
    else max 0 (100 - value * 8)
  else if parameter = "phosphate" then
    if value ≤ 0.1 then 95
    else if value ≤ 0.2 then 90
    else if value ≤ 0.4 then 80
    else if value ≤ 0.8 then 60
    else if value ≤ 1.2 then 40
    else if value ≤ 1.6 then 30
    else max 0 (100 - value * 40)
  else if parameter = "turbidity" then
    if value ≤ 1.0 then 95
    else if value ≤ 5.0 then 90
    else if value ≤ 10.0 then 80
    else if value ≤ 20.0 then 70
    else if value ≤ 50.0 then 50
    else if value ≤ 100.0 then 30
    else max 0 (100 - value)
  else if parameter = "TDS" then
    if value ≤ 50 then 95
    else if value ≤ 100 then 85
    else if value ≤ 200 then 75
    else if value ≤ 300 then 65
    else if value ≤ 400 then 50
    else if value ≤ 500 then 35
    else max 0 (100 - value / 10)
  else 50

/-- The first-matching-interval loop of `get_wqi_rating`, over an
explicit table (the source iterates `self.wqi_rating.items()`). -/
def ratingScan (table : List ((ℚ × ℚ) × String)) (s : ℚ) : String :=
  match table with
  | [] => "Undefined"
  | ((mn, mx), r) :: rest => if mn ≤ s ∧ s ≤ mx then r else ratingScan rest s

/-- `get_wqi_rating(wqi_score)`. -/
def get_wqi_rating (s : ℚ) : String := ratingScan wqi_rating s

/-- `assess_parameter_quality(parameter, value)`. -/
def assess_parameter_quality (parameter : String) (value : ℚ) : String × String :=
  match standards.lookup parameter with
  | some (mn, mx) =>
      if mn ≤ value ∧ ((value : ℚ) : WithTop ℚ) ≤ mx then ("Within Standard", "✓")
      else ("Exceeds Standard", "✗")
  | none => ("No Standard", "-")

/-- The WQI aggregation loop of `src/app.py` (lines 36-42):
`total_wqi += get_q_value(p, preds.get(p, 0)) * w` over the weights
table. -/
def total_wqi (preds : List (String × ℚ)) : ℚ :=
  weights.foldl (fun acc pw => acc + get_q_value pw.1 ((preds.lookup pw.1).getD 0) * pw.2) 0

/-- The error message of every `raise ValueError` in `analyzer.py`. -/
def invalidDistanceMsg : String := "Distance must be greater than 0"

/-- `predict_ph(distance)`. -/
noncomputable def predict_ph (d : ℝ) : Except String ℝ :=
  if d ≤ 0 then Except.error invalidDistanceMsg
  else Except.ok (-0.028 * d + 7.909)

/-- `predict_turbidity(distance)`: `755.873 * distance ** -2.945`. -/
noncomputable def predict_turbidity (d : ℝ) : Except String ℝ :=
  if d ≤ 0 then Except.error invalidDistanceMsg
  else Except.ok (755.873 * d ^ (-2.945 : ℝ))

/-- `predict_tds(distance)`. -/
noncomputable def predict_tds (d : ℝ) : Except String ℝ :=
  if d ≤ 0 then Except.error invalidDistanceMsg
  else Except.ok (86.24 * d - 82.03)

/-- `predict_iron(distance)`: `12.803 * math.log(distance) + 2.271`. -/
noncomputable def predict_iron (d : ℝ) : Except String ℝ :=
  if d ≤ 0 then Except.error invalidDistanceMsg
  else Except.ok (12.803 * Real.log d + 2.271)

/-- `predict_phosphate(distance)`. -/
noncomputable def predict_phosphate (d : ℝ) : Except String ℝ :=
  if d ≤ 0 then Except.error invalidDistanceMsg
  else Except.ok (0.079 * d + 0.958)

/-- `predict_nitrate(distance)`: `-0.55 * math.log(distance) + 1.544`. -/
noncomputable def predict_nitrate (d : ℝ) : Except String ℝ :=
  if d ≤ 0 then Except.error invalidDistanceMsg
  else Except.ok (-0.55 * Real.log d + 1.544)

/-- `predict_do(distance)`: the three-piece step function; it has no
`raise` path, so it is a total function. -/
noncomputable def predict_do (d : ℝ) : ℝ :=
  if d ≤ 3 then 8.00
  else if d ≤ 5 then 7.45
  else 8.20

/-- `predict_all_parameters(distance)`: builds the predictions dict,
evaluating the predictors in source order; a raise in any of them
propagates out of the dict construction. -/
noncomputable def predict_all_parameters (d : ℝ) :
    Except String (List (String × ℝ)) :=
  Except.bind (predict_ph d) fun ph =>
  let dov := predict_do d
  Except.bind (predict_turbidity d) fun turb =>
  Except.bind (predict_tds d) fun tds =>
  Except.bind (predict_iron d) fun iron =>
  Except.bind (predict_phosphate d) fun phos =>
  Except.bind (predict_nitrate d) fun nit =>
  Except.ok [("pH", ph), ("DO", dov), ("turbidity", turb), ("TDS", tds),
             ("iron", iron), ("phosphate", phos), ("nitrate", nit)]

/-- The Q-value threshold table exactly as §4.2 of the specification
words it, for comparison with the source's `get_q_value`. -/
def spec_q_value (parameter : String) (value : ℚ) : ℚ :=
  if parameter = "DO" then
    if value ≥ 7.5 then 90
    else if value ≥ 7.0 then 85
    else if value ≥ 6.5 then 80
    else if value ≥ 6.0 then 75
    else if value ≥ 5.5 then 70
    else if value ≥ 5.0 then 65
    else max 0 ((pytrunc (value * 10) : ℤ) : ℚ)
  else if parameter = "pH" then
    if 7.0 ≤ value ∧ value ≤ 8.0 then 90
    else if (6.5 ≤ value ∧ value < 7.0) ∨ (8.0 < value ∧ value ≤ 8.5) then 80
    else if (6.0 ≤ value ∧ value < 6.5) ∨ (8.5 < value ∧ value ≤ 9.0) then 60
    else if (5.5 ≤ value ∧ value < 6.0) ∨ (9.0 < value ∧ value ≤ 9.5) then 40
    else 20
  else if parameter = "nitrate" then
    if value ≤ 1.0 then 95
    else if value ≤ 2.0 then 90
    else if value ≤ 5.0 then 80
    else if value ≤ 7.5 then 70
    else if value ≤ 10.0 then 60
    else max 0 (100 - value * 8)
  else if parameter = "phosphate" then
    if value ≤ 0.1 then 95
    else if value ≤ 0.2 then 90
    else if value ≤ 0.4 then 80
    else if value ≤ 0.8 then 60
    else if value ≤ 1.2 then 40
    else if value ≤ 1.6 then 30
    else max 0 (100 - value * 40)
  else if parameter = "turbidity" then
    if value ≤ 1.0 then 95
    else if value ≤ 5.0 then 90
    else if value ≤ 10.0 then 80
    else if value ≤ 20.0 then 70
    else if value ≤ 50.0 then 50
    else if value ≤ 100.0 then 30
    else max 0 (100 - value)
  else if parameter = "TDS" then
    if value ≤ 50 then 95
    else if value ≤ 100 then 85
    else if value ≤ 200 then 75
    else if value ≤ 300 then 65
    else if value ≤ 400 then 50
    else if value ≤ 500 then 35
    else max 0 (100 - value / 10)
  else 50

/-- The rating classification exactly as the specification words it:
the band whose closed interval contains the score, both endpoints
inclusive, and `Undefined` when no interval contains it. -/
def spec_rating (s : ℚ) : String :=
  if 91 ≤ s ∧ s ≤ 100 then "Excellent Quality"
  else if 71 ≤ s ∧ s ≤ 90 then "Good Quality"
  else if 51 ≤ s ∧ s ≤ 70 then "Moderate Quality"
  else if 26 ≤ s ∧ s ≤ 50 then "Poor Quality"
  else if 0 ≤ s ∧ s ≤ 25 then "Very Poor Quality"
  else "Undefined"

/-- Whether a rating-table entry's interval contains the score. -/
def entryMatches (s : ℚ) (e : (ℚ × ℚ) × String) : Bool :=
  decide (e.1.1 ≤ s ∧ s ≤ e.1.2)

/-- Truncation toward zero never exceeds `max 0 q`. -/
lemma pytrunc_le (q : ℚ) : ((pytrunc q : ℤ) : ℚ) ≤ max 0 q := by
  unfold pytrunc
  split_ifs with h
  · exact le_trans (Int.floor_le q) (le_max_right 0 q)
  · have hq : q ≤ 0 := le_of_not_le (fun hc => h hc)
    have : (⌈q⌉ : ℤ) ≤ 0 := Int.ceil_le.mpr (by exact_mod_cast hq)
    calc ((⌈q⌉ : ℤ) : ℚ) ≤ 0 := by exact_mod_cast this
    _ ≤ max 0 q := le_max_left 0 q

/-- The first-matching-interval loop is first-match search on the
table. -/
lemma ratingScan_eq_find (tbl : List ((ℚ × ℚ) × String)) (s : ℚ) :
    ratingScan tbl s = ((tbl.find? (entryMatches s)).map Prod.snd).getD "Undefined" := by
  induction tbl with
  | nil => rfl
  | cons e rest ih =>
    obtain ⟨⟨mn, mx⟩, r⟩ := e
    by_cases h : mn ≤ s ∧ s ≤ mx
    · rw [List.find?_cons_of_pos _ (by simpa [entryMatches] using h)]
      simp [ratingScan, h]
    · rw [List.find?_cons_of_neg _ (by simpa [entryMatches] using h)]
      simp [ratingScan, h, ih]

/-- First-match search is invariant under permutation when at most one
element of the list satisfies the predicate. -/
lemma find_of_perm_of_unique {α : Type} (p : α → Bool) (l l' : List α)
    (hperm : l'.Perm l)
    (huniq : ∀ a ∈ l, ∀ b ∈ l, p a = true → p b = true → a = b) :
    l'.find? p = l.find? p := by
  cases hfind : l.find? p with
  | none =>
    rw [List.find?_eq_none] at hfind ⊢
    intro a ha
    exact hfind a (hperm.mem_iff.mp ha)
  | some x =>
    have hx_mem : x ∈ l := List.mem_of_find?_eq_some hfind
    have hx_p : p x = true := List.find?_some hfind
    have hsome : (l'.find? p).isSome := by
      rw [List.find?_isSome]
      exact ⟨x, hperm.mem_iff.mpr hx_mem, hx_p⟩
    obtain ⟨y, hy⟩ := Option.isSome_iff_exists.mp hsome
    have hy_mem : y ∈ l := hperm.mem_iff.mp (List.mem_of_find?_eq_some hy)
    have hy_p : p y = true := List.find?_some hy
    rw [hy, huniq y hy_mem x hx_mem hy_p hx_p]

/-- A guarded regression predictor reports the invalid-distance error
exactly on nonpositive distances. -/
lemma guard_error_iff (f : ℝ → ℝ) (d : ℝ) :
    (if d ≤ 0 then Except.error invalidDistanceMsg else Except.ok (f d)) =
      (Except.error invalidDistanceMsg : Except String ℝ) ↔ d ≤ 0 := by
  split_ifs with h
  · simp [h]
  · simp [h]

/-- C1 (counterexample): the six aggregation weights of
`SunganRiverWaterQualityAnalyzer` do not sum to 1.0 — their exact sum
is 1.001 — so the claim as stated is false. -/
theorem weights_sum_ne_one : weightsSum ≠ 1 := by
  norm_num [weightsSum, weights]

/-- C1 (amended): the six aggregation weights sum exactly to 1.001,
so a uniform Q-score of 90 over the six weighted parameters would
aggregate to 90 · 1.001 = 90.09, not 90.0; moreover no TDS value
attains a Q-score of exactly 90, so no prediction vector makes every
weighted parameter score exactly 90. -/
theorem weights_sum_and_uniform_ninety :
    weightsSum = 1.001 ∧ 90 * weightsSum = 90.09 ∧
      ∀ v : ℚ, get_q_value "TDS" v ≠ 90 := by
  refine ⟨by norm_num [weightsSum, weights], by norm_num [weightsSum, weights], ?_⟩
  intro v
  unfold get_q_value
  norm_num +decide
  split_ifs with h1 h2 h3 h4 h5 h6 <;> try norm_num
  all_goals have h7 : (100 : ℚ) - v / 10 ≤ 50 := by linarith
  all_goals have h8 : (0 : ℚ) ⊔ (100 - v / 10) ≤ 50 := max_le (by norm_num) h7
  all_goals exact ne_of_lt (lt_of_le_of_lt h8 (by norm_num))

/-- C1 (witness): the TDS Q-score at the concrete value 600 is not
90. -/
theorem weights_sum_and_uniform_ninety_witness :
    get_q_value "TDS" 600 ≠ 90 :=
  weights_sum_and_uniform_ninety.2.2 600

/-- C3: the source's `get_q_value` agrees with the specification's
piecewise threshold table on every parameter and value, with the
final bucket a linear fallback floored at 0 and, for DO, truncation
toward zero via `int(value*10)`; in particular score('pH', 7.5) = 90,
score('pH', 8.3) = 80, score('pH', 10) = 20, and score('DO', 4.2) =
42. -/
theorem q_value_follows_spec_table :
    (∀ p v, get_q_value p v = spec_q_value p v) ∧
      get_q_value "pH" 7.5 = 90 ∧ get_q_value "pH" 8.3 = 80 ∧
      get_q_value "pH" 10 = 20 ∧ get_q_value "DO" 4.2 = 42 := by
  refine ⟨fun p v => rfl, ?_, ?_, ?_, ?_⟩
  · norm_num +decide [get_q_value]
  · norm_num +decide [get_q_value]
  · norm_num +decide [get_q_value]
  · norm_num +decide [get_q_value, pytrunc]

/-- C4: the aggregation loop of `src/app.py` computes exactly the sum,
over the six weighted parameters, of Q-score times weight; iron's
predicted value does not appear in the result. -/
theorem total_wqi_weighted_sum :
    ∀ vpH vDO vturb vTDS viron vphos vnit : ℚ,
      total_wqi [("pH", vpH), ("DO", vDO), ("turbidity", vturb), ("TDS", vTDS),
                 ("iron", viron), ("phosphate", vphos), ("nitrate", vnit)] =
        get_q_value "DO" vDO * 0.27 + get_q_value "pH" vpH * 0.175 +
        get_q_value "nitrate" vnit * 0.159 + get_q_value "phosphate" vphos * 0.159 +
        get_q_value "turbidity" vturb * 0.127 + get_q_value "TDS" vTDS * 0.111 := by
  intro vpH vDO vturb vTDS viron vphos vnit
  simp +decide [total_wqi, weights, List.lookup]
  try ring

/-- C5: rating classification returns the band whose closed interval
contains the WQI score, endpoints inclusive, and returns "Undefined"
for every score in none of the five intervals — 25.5, every negative
score, and every score above 100 included. -/
theorem rating_follows_intervals :
    (∀ s : ℚ, get_wqi_rating s = spec_rating s) ∧
      get_wqi_rating 25.5 = "Undefined" ∧
      (∀ s : ℚ, s < 0 → get_wqi_rating s = "Undefined") ∧
      (∀ s : ℚ, 100 < s → get_wqi_rating s = "Undefined") := by
  have hmain : ∀ s : ℚ, get_wqi_rating s = spec_rating s := fun s => rfl
  refine ⟨hmain, by norm_num [get_wqi_rating, wqi_rating, ratingScan], ?_, ?_⟩
  · intro s hs
    rw [hmain s]
    unfold spec_rating
    rw [if_neg (by rintro ⟨a, b⟩; linarith), if_neg (by rintro ⟨a, b⟩; linarith),
        if_neg (by rintro ⟨a, b⟩; linarith), if_neg (by rintro ⟨a, b⟩; linarith),
        if_neg (by rintro ⟨a, b⟩; linarith)]
  · intro s hs
    rw [hmain s]
    unfold spec_rating
    rw [if_neg (by rintro ⟨a, b⟩; linarith), if_neg (by rintro ⟨a, b⟩; linarith),
        if_neg (by rintro ⟨a, b⟩; linarith), if_neg (by rintro ⟨a, b⟩; linarith),
        if_neg (by rintro ⟨a, b⟩; linarith)]

/-- C5 (witness): a negative score, here −7, classifies as
"Undefined". -/
theorem rating_follows_intervals_witness :
    get_wqi_rating (-7) = "Undefined" :=
  rating_follows_intervals.2.2.1 (-7) (by norm_num)

/-- C7: `predict_do` is the exact three-piece step function — 8.00 for
d ≤ 3, 7.45 for 3 < d ≤ 5, 8.20 for d > 5 — and, having no raise
path, is defined at distance 0; in particular predict(2) = 8.00,
predict(3) = 8.00, predict(4) = 7.45, predict(5) = 7.45,
predict(6) = 8.20. -/
theorem predict_do_step :
    (∀ d : ℝ, d ≤ 3 → predict_do d = 8.00) ∧
      (∀ d : ℝ, 3 < d → d ≤ 5 → predict_do d = 7.45) ∧
      (∀ d : ℝ, 5 < d → predict_do d = 8.20) ∧
      predict_do 0 = 8.00 ∧ predict_do 2 = 8.00 ∧ predict_do 3 = 8.00 ∧
      predict_do 4 = 7.45 ∧ predict_do 5 = 7.45 ∧ predict_do 6 = 8.20 := by
  have h1 : ∀ d : ℝ, d ≤ 3 → predict_do d = 8.00 := by
    intro d hd
    unfold predict_do
    rw [if_pos hd]
  have h2 : ∀ d : ℝ, 3 < d → d ≤ 5 → predict_do d = 7.45 := by
    intro d hd hd'
    unfold predict_do
    rw [if_neg (by linarith), if_pos hd']
  have h3 : ∀ d : ℝ, 5 < d → predict_do d = 8.20 := by
    intro d hd
    unfold predict_do
    rw [if_neg (by linarith), if_neg (by linarith)]
  exact ⟨h1, h2, h3, h1 0 (by norm_num), h1 2 (by norm_num), h1 3 (by norm_num),
    h2 4 (by norm_num) (by norm_num), h2 5 (by norm_num) (by norm_num),
    h3 6 (by norm_num)⟩

/-- C7 (witness): at the concrete distance 4.5, which lies in
(3, 5], the step function yields 7.45. -/
theorem predict_do_step_witness : predict_do 4.5 = 7.45 :=
  predict_do_step.2.1 4.5 (by norm_num) (by norm_num)

/-- C8: `get_q_value` is a total function — for every parameter name
and every rational value it returns a Q-score, and that score always
lies in [0, 100]. -/
theorem q_value_total_and_bounded :
    ∀ (p : String) (v : ℚ), 0 ≤ get_q_value p v ∧ get_q_value p v ≤ 100 := by
  intro p v
  unfold get_q_value
  by_cases hDO : p = "DO"
  · simp only [if_pos hDO]
    split_ifs <;> try norm_num
    all_goals exact le_trans (pytrunc_le (v * 10)) (max_le (by norm_num) (by linarith))
  · simp only [if_neg hDO]
    by_cases hpH : p = "pH"
    · simp only [if_pos hpH]
      split_ifs <;> norm_num
    · simp only [if_neg hpH]
      by_cases hni : p = "nitrate"
      · simp only [if_pos hni]
        split_ifs <;> try norm_num
        all_goals linarith
      · simp only [if_neg hni]
        by_cases hph : p = "phosphate"
        · simp only [if_pos hph]
          split_ifs <;> try norm_num
          all_goals linarith
        · simp only [if_neg hph]
          by_cases htu : p = "turbidity"
          · simp only [if_pos htu]
            split_ifs <;> try norm_num
            all_goals linarith
          · simp only [if_neg htu]
            by_cases htd : p = "TDS"
            · simp only [if_pos htd]
              split_ifs <;> try norm_num
              all_goals linarith
            · simp only [if_neg htd]
              norm_num

/-- C9: `assess_parameter_quality` never fails: a parameter absent
from the standards table yields ("No Standard", "-"); a parameter
with bounds (min, max) yields ("Within Standard", "✓") when
min ≤ value ≤ max and ("Exceeds Standard", "✗") otherwise; in
particular turbidity 3 is within standard, turbidity 7 exceeds it,
and iron is assessed against (0, 0.3) at every value. -/
theorem assess_follows_standards :
    (∀ (p : String) (v : ℚ), standards.lookup p = none →
        assess_parameter_quality p v = ("No Standard", "-")) ∧
      (∀ (p : String) (v : ℚ) (mn : ℚ) (mx : WithTop ℚ),
        standards.lookup p = some (mn, mx) →
        assess_parameter_quality p v =
          if mn ≤ v ∧ ((v : ℚ) : WithTop ℚ) ≤ mx then ("Within Standard", "✓")
          else ("Exceeds Standard", "✗")) ∧
      assess_parameter_quality "turbidity" 3 = ("Within Standard", "✓") ∧
      assess_parameter_quality "turbidity" 7 = ("Exceeds Standard", "✗") ∧
      (∀ v : ℚ, assess_parameter_quality "iron" v =
        if 0 ≤ v ∧ v ≤ 0.3 then ("Within Standard", "✓")
        else ("Exceeds Standard", "✗")) := by
  refine ⟨?_, ?_, ?_, ?_, ?_⟩
  · intro p v h
    unfold assess_parameter_quality
    rw [h]
  · intro p v mn mx h
    unfold assess_parameter_quality
    rw [h]
  · norm_num +decide [assess_parameter_quality, standards, List.lookup]
  · norm_num +decide [assess_parameter_quality, standards, List.lookup]
  · intro v
    simp +decide [assess_parameter_quality, standards, List.lookup]

/-- C9 (witness): an unrecognized parameter name, here "lead", is
assessed as ("No Standard", "-") at the concrete value 1. -/
theorem assess_follows_standards_witness :
    assess_parameter_quality "lead" 1 = ("No Standard", "-") :=
  assess_follows_standards.1 "lead" 1 (by simp +decide [standards, List.lookup])

/-- C10: the five rating intervals are pairwise disjoint — any score
contained in two table entries forces the entries to be equal — and
therefore the first-match rating lookup gives the same answer on any
permutation of the table: the result does not depend on the order in
which the entries are scanned. -/
theorem rating_lookup_order_independent :
    (∀ s : ℚ, ∀ e₁ ∈ wqi_rating, ∀ e₂ ∈ wqi_rating,
        e₁.1.1 ≤ s ∧ s ≤ e₁.1.2 → e₂.1.1 ≤ s ∧ s ≤ e₂.1.2 → e₁ = e₂) ∧
      ∀ tbl : List ((ℚ × ℚ) × String), tbl.Perm wqi_rating →
        ∀ s : ℚ, ratingScan tbl s = ratingScan wqi_rating s := by
  have huniq : ∀ s : ℚ, ∀ e₁ ∈ wqi_rating, ∀ e₂ ∈ wqi_rating,
      e₁.1.1 ≤ s ∧ s ≤ e₁.1.2 → e₂.1.1 ≤ s ∧ s ≤ e₂.1.2 → e₁ = e₂ := by
    intro s e₁ h₁ e₂ h₂ hc₁ hc₂
    simp only [wqi_rating, List.mem_cons, List.not_mem_nil, or_false] at h₁ h₂
    rcases h₁ with rfl | rfl | rfl | rfl | rfl <;>
      rcases h₂ with rfl | rfl | rfl | rfl | rfl <;>
      first
        | rfl
        | (exfalso
           obtain ⟨a₁, b₁⟩ := hc₁
           obtain ⟨a₂, b₂⟩ := hc₂
           norm_num at a₁ b₁ a₂ b₂
           linarith)
  refine ⟨huniq, ?_⟩
  intro tbl hperm s
  rw [ratingScan_eq_find, ratingScan_eq_find]
  rw [find_of_perm_of_unique (entryMatches s) wqi_rating tbl hperm ?_]
  intro a ha b hb hpa hpb
  exact huniq s a ha b hb (by simpa [entryMatches] using hpa)
    (by simpa [entryMatches] using hpb)

/-- C10 (witness): scanning the reversed rating table at the concrete
score 80 gives the same rating as scanning the original table. -/
theorem rating_lookup_order_independent_witness :
    ratingScan wqi_rating.reverse 80 = ratingScan wqi_rating 80 :=
  rating_lookup_order_independent.2 wqi_rating.reverse
    (List.reverse_perm wqi_rating) 80

/-- C2: for every distance d > 0, `predict_all_parameters` returns
exactly the seven keys pH, DO, turbidity, TDS, iron, phosphate,
nitrate, each value given by its closed-form formula, each computed
independently of the others; in particular at d = 10 the pH
prediction is exactly 7.629 and the TDS prediction exactly 780.37. -/
theorem predict_all_closed_forms :
    (∀ d : ℝ, 0 < d →
      predict_all_parameters d = Except.ok
        [("pH", -0.028 * d + 7.909),
         ("DO", if d ≤ 3 then 8.00 else if d ≤ 5 then 7.45 else 8.20),
         ("turbidity", 755.873 * d ^ (-2.945 : ℝ)),
         ("TDS", 86.24 * d - 82.03),
         ("iron", 12.803 * Real.log d + 2.271),
         ("phosphate", 0.079 * d + 0.958),
         ("nitrate", -0.55 * Real.log d + 1.544)]) ∧
      predict_ph 10 = Except.ok 7.629 ∧
      predict_tds 10 = Except.ok 780.37 := by
  refine ⟨?_, ?_, ?_⟩
  · intro d hd
    have hd' : ¬ d ≤ 0 := not_le.mpr hd
    simp [predict_all_parameters, predict_ph, predict_turbidity, predict_tds,
      predict_iron, predict_phosphate, predict_nitrate, predict_do, hd',
      Except.bind]
  · rw [predict_ph, if_neg (by norm_num : ¬ (10 : ℝ) ≤ 0)]
    norm_num
  · rw [predict_tds, if_neg (by norm_num : ¬ (10 : ℝ) ≤ 0)]
    norm_num

/-- C2 (witness): at the concrete distance 1 the seven predictions
are returned with their closed-form values. -/
theorem predict_all_closed_forms_witness :
    predict_all_parameters 1 = Except.ok
      [("pH", -0.028 * (1 : ℝ) + 7.909),
       ("DO", if (1 : ℝ) ≤ 3 then 8.00 else if (1 : ℝ) ≤ 5 then 7.45 else 8.20),
       ("turbidity", 755.873 * (1 : ℝ) ^ (-2.945 : ℝ)),
       ("TDS", 86.24 * (1 : ℝ) - 82.03),
       ("iron", 12.803 * Real.log 1 + 2.271),
       ("phosphate", 0.079 * (1 : ℝ) + 0.958),
       ("nitrate", -0.55 * Real.log 1 + 1.544)] :=
  predict_all_closed_forms.1 1 (by norm_num)

/-- C6 (counterexample): the error raised on a nonpositive distance
carries the message "Distance must be greater than 0" (capital D),
not the message "distance must be greater than 0" quoted by the
claim, as `predict_ph` at distance 0 shows. -/
theorem predictor_error_message_capitalized :
    predict_ph 0 = Except.error "Distance must be greater than 0" ∧
      predict_ph 0 ≠ Except.error "distance must be greater than 0" := by
  constructor
  · rw [predict_ph, if_pos (le_refl (0 : ℝ))]
    rfl
  · rw [predict_ph, if_pos (le_refl (0 : ℝ))]
    intro h
    have := Except.error.inj h
    simp [invalidDistanceMsg] at this

/-- C6 (amended): each of the six regression predictors fails with
the message "Distance must be greater than 0" exactly when the
distance is ≤ 0 — on positive distances each returns a value — and
`predict_all_parameters` fails with that message at distances 0 and
−1. -/
theorem predictor_invalid_input_iff :
    (∀ d : ℝ, predict_ph d = Except.error "Distance must be greater than 0" ↔ d ≤ 0) ∧
      (∀ d : ℝ, predict_turbidity d = Except.error "Distance must be greater than 0" ↔ d ≤ 0) ∧
      (∀ d : ℝ, predict_tds d = Except.error "Distance must be greater than 0" ↔ d ≤ 0) ∧
      (∀ d : ℝ, predict_iron d = Except.error "Distance must be greater than 0" ↔ d ≤ 0) ∧
      (∀ d : ℝ, predict_phosphate d = Except.error "Distance must be greater than 0" ↔ d ≤ 0) ∧
      (∀ d : ℝ, predict_nitrate d = Except.error "Distance must be greater than 0" ↔ d ≤ 0) ∧
      predict_all_parameters 0 = Except.error "Distance must be greater than 0" ∧
      predict_all_parameters (-1) = Except.error "Distance must be greater than 0" := by
  refine ⟨?_, ?_, ?_, ?_, ?_, ?_, ?_, ?_⟩
  · intro d
    rw [show "Distance must be greater than 0" = invalidDistanceMsg from rfl]
    unfold predict_ph
    exact guard_error_iff (fun x => -0.028 * x + 7.909) d
  · intro d
    rw [show "Distance must be greater than 0" = invalidDistanceMsg from rfl]
    unfold predict_turbidity
    exact guard_error_iff (fun x => 755.873 * x ^ (-2.945 : ℝ)) d
  · intro d
    rw [show "Distance must be greater than 0" = invalidDistanceMsg from rfl]
    unfold predict_tds
    exact guard_error_iff (fun x => 86.24 * x - 82.03) d
  · intro d
    rw [show "Distance must be greater than 0" = invalidDistanceMsg from rfl]
    unfold predict_iron
    exact guard_error_iff (fun x => 12.803 * Real.log x + 2.271) d
  · intro d
    rw [show "Distance must be greater than 0" = invalidDistanceMsg from rfl]
    unfold predict_phosphate
    exact guard_error_iff (fun x => 0.079 * x + 0.958) d
  · intro d
    rw [show "Distance must be greater than 0" = invalidDistanceMsg from rfl]
    unfold predict_nitrate
    exact guard_error_iff (fun x => -0.55 * Real.log x + 1.544) d
  · have h0 : predict_ph 0 = Except.error invalidDistanceMsg := by
      rw [predict_ph, if_pos (le_refl (0 : ℝ))]
    rw [predict_all_parameters, h0]
    rfl
  · have h1 : predict_ph (-1) = Except.error invalidDistanceMsg := by
      rw [predict_ph, if_pos (by norm_num : (-1 : ℝ) ≤ 0)]
    rw [predict_all_parameters, h1]
    rfl

/-- C6 (witness): at the concrete distance −2 the pH predictor fails
with the invalid-distance message. -/
theorem predictor_invalid_input_iff_witness :
    predict_ph (-2) = Except.error "Distance must be greater than 0" :=
  (predictor_invalid_input_iff.1 (-2)).mpr (by norm_num)

end Sungan
